import Mathlib

/-!
Verification of the Task Manager backend (Express + Mongoose CRUD service).

The embedding below translates `routes/tasks.js` (the resource handlers,
the express-validator chains and the `getTask` middleware) into Lean.
The persistence layer (`models/Task.js`, a Mongoose model) is not part of
the sources; its behaviour (schema defaults, generated identifiers,
`find`/`findById`/`save`/`deleteOne`) is modelled from the spec where noted.
-/

set_option maxRecDepth 8192

namespace TaskManager

/-- JSON-ish value for a request-body field: the shapes the handlers
distinguish (`null`, booleans, strings). A field that is absent from the
body is an `Option.none` at the use site. -/
inductive JVal where
  | null
  | bool (b : Bool)
  | str (s : String)
deriving DecidableEq, Repr

/-- A persisted Task document. `description` is optional in the schema;
`createdAt` is the creation timestamp (modelled as a Nat). -/
structure Task where
  id : String
  title : String
  description : Option String
  completed : Bool
  createdAt : Nat
deriving DecidableEq, Repr

/-- A validation violation as reported by express-validator:
the failing field and its fixed message. -/
structure Violation where
  field : String
  msg : String
deriving DecidableEq, Repr

/-- Response body: a task list, a single task, a fixed message object
`\x7bmessage: ...\x7d`, or a validation-error list `\x7berrors: [...]\x7d`. -/
inductive RBody where
  | tasks (ts : List Task)
  | task (t : Task)
  | message (m : String)
  | errors (es : List Violation)
deriving DecidableEq, Repr

/-- An HTTP response: status code and JSON body. -/
structure Response where
  status : Nat
  body : RBody
deriving DecidableEq, Repr

/-- Hex-digit test used by `mongoose.isValidObjectId` on 24-character
strings. -/
def isHexChar (c : Char) : Bool :=
  ('0' ≤ c && c ≤ '9') || ('a' ≤ c && c ≤ 'f') || ('A' ≤ c && c ≤ 'F')

/-- The identifier guard `mongoose.isValidObjectId` on a path-parameter
string: valid iff it is a 12-character string or a 24-character hex
string. -/
def isValidObjectId (s : String) : Bool :=
  s.length == 12 || (s.length == 24 && s.toList.all isHexChar)

/-- The string coercion express-validator applies to a field value before
running validator.js validators: absent and `null` become the empty
string, booleans render as `"true"`/`"false"`, strings pass through. -/
def jvalToValidatorString : Option JVal → String
  | none => ""
  | some .null => ""
  | some (.bool b) => cond b "true" "false"
  | some (.str s) => s

/-- Skip test of `optional(\x7bnullable: true, checkFalsy: true\x7d)`:
the chain is skipped when the field is absent, `null`, or falsy. -/
def checkFalsySkip : Option JVal → Bool
  | none => true
  | some .null => true
  | some (.str s) => s.length == 0
  | some (.bool b) => !b

/-- Skip test of a plain `optional()`: the chain is skipped only when the
field is absent (undefined). -/
def optionalSkip : Option JVal → Bool
  | none => true
  | some _ => false

/-- validator.js `isBoolean` (default mode) on the coerced string. -/
def isBooleanStr (s : String) : Bool :=
  s == "true" || s == "false" || s == "0" || s == "1"

/-- Validation chain of `router.post` from `routes/tasks.js`:
`title` must be non-empty and at most 255 characters, `description`
(optional, nullable/checkFalsy) at most 1000 characters. Violations are
collected in field-declaration order, chain order within a field. -/
def postValidate (title description : Option JVal) : List Violation :=
  let ts := jvalToValidatorString title
  let ds := jvalToValidatorString description
  ((if ts.length == 0 then [⟨"title", "El título es obligatorio"⟩] else []) ++
   (if 255 < ts.length then
      [⟨"title", "El título no puede tener más de 255 caracteres"⟩] else [])) ++
  (if checkFalsySkip description then []
   else if 1000 < ds.length then
      [⟨"description", "La descripción no puede tener más de 1000 caracteres"⟩]
   else [])

/-- Validation chain of `router.patch` from `routes/tasks.js`: all three
fields optional; `title` at most 255 characters, `description` at most
1000, `completed` must satisfy `isBoolean` when present. -/
def patchValidate (title description completed : Option JVal) : List Violation :=
  (if optionalSkip title then []
   else if 255 < (jvalToValidatorString title).length then
      [⟨"title", "El título no puede tener más de 255 caracteres"⟩] else []) ++
  (if optionalSkip description then []
   else if 1000 < (jvalToValidatorString description).length then
      [⟨"description", "La descripción no puede tener más de 1000 caracteres"⟩]
   else []) ++
  (if optionalSkip completed then []
   else if isBooleanStr (jvalToValidatorString completed) then []
   else [⟨"completed", "El estado debe ser un booleano"⟩])

/-- The store: the persisted collection of Task documents. -/
structure Store where
  tasks : List Task
deriving DecidableEq, Repr

/-- Modelled from the spec: the store owns uniqueness of the identifier
field — every persisted identifier names exactly one Task. -/
def Store.WF (s : Store) : Prop :=
  s.tasks.Pairwise (fun a b => a.id ≠ b.id)

/-- Modelled from the spec: `Task.findById`, lookup of the unique document
with the given identifier. -/
def Store.findById (s : Store) (id : String) : Option Task :=
  s.tasks.find? (fun t => t.id == id)

/-- Modelled from the spec: `Task.find(filter)` where `filter` is either
empty or `\x7bcompleted: b\x7d`. -/
def Store.findFiltered (s : Store) (filter : Option Bool) : List Task :=
  match filter with
  | none => s.tasks
  | some b => s.tasks.filter (fun t => t.completed == b)

/-- Mongoose string cast applied by `new Task(...)` / field assignment to
the raw body value: strings pass through, booleans render, `null` and
absent store nothing. -/
def jvalToMongoString : Option JVal → Option String
  | none => none
  | some .null => none
  | some (.bool b) => some (cond b "true" "false")
  | some (.str s) => some s

/-- Mongoose boolean cast for the `completed` assignment (only reached on
values that passed `isBoolean`). -/
def jvalToMongoBool : JVal → Bool
  | .null => false
  | .bool b => b
  | .str s => s == "true" || s == "1"

/-- Modelled from the spec: persisting a new Task applies the schema
defaults — store-generated unique `id`, `completed = false`, `createdAt`
set once at creation (`models/Task.js` is not among the sources). The
generated identifier and clock are parameters of the embedding. -/
def Store.saveNew (s : Store) (title : String) (descr : Option String)
    (genId : String) (now : Nat) : Task × Store :=
  let t : Task := ⟨genId, title, descr, false, now⟩
  (t, ⟨s.tasks ++ [t]⟩)

/-- Modelled from the spec: `document.save()` on an existing document
persists the updated fields at the document's identifier. -/
def Store.saveDoc (s : Store) (t' : Task) : Store :=
  ⟨s.tasks.map (fun u => if u.id == t'.id then t' else u)⟩

/-- Modelled from the spec: `Task.deleteOne(\x7b_id\x7d)` removes the
(first, and under `WF` only) document with that identifier. -/
def Store.deleteById (s : Store) (id : String) : Store :=
  ⟨s.tasks.eraseP (fun u => u.id == id)⟩

/-- Body of a create request. -/
structure CreateBody where
  title : Option JVal
  description : Option JVal
deriving DecidableEq, Repr

/-- Body of a patch request. -/
structure PatchBody where
  title : Option JVal
  description : Option JVal
  completed : Option JVal
deriving DecidableEq, Repr

/-- The JavaScript test `x != null`: the field is present and not `null`.
This is the guard of each assignment in the patch handler. -/
def jvalNonNull : Option JVal → Bool
  | none => false
  | some .null => false
  | some _ => true

/-- Handler of `GET /tasks` (`router.get('/')`): builds
`filter.completed = (req.query.completed === 'true')` when the query
parameter is present, then `Task.find(filter)`. A store failure is caught
and mapped to 500 with the fixed message. -/
def listHandler (s : Store) (completedQuery : Option String)
    (findFails : Bool) : Response :=
  let filter : Option Bool := completedQuery.map (fun v => v == "true")
  if findFails then ⟨500, .message "Error al obtener las tareas"⟩
  else ⟨200, .tasks (s.findFiltered filter)⟩

/-- Handler of `POST /tasks` (`router.post('/')`): runs the validation
chain; on violations returns 400 with the error list and touches nothing;
otherwise saves a new Task (500 on store failure, nothing persisted) and
returns 201 with the created record. -/
def createHandler (s : Store) (b : CreateBody) (genId : String) (now : Nat)
    (saveFails : Bool) : Response × Store :=
  let errs := postValidate b.title b.description
  if errs.isEmpty then
    if saveFails then (⟨500, .message "Error al crear la tarea"⟩, s)
    else
      let (t, s') := s.saveNew ((jvalToMongoString b.title).getD "")
        (jvalToMongoString b.description) genId now
      (⟨201, .task t⟩, s')
  else (⟨400, .errors errs⟩, s)

/-- Outcome of the `getTask` middleware: either a terminal error response
or the located document; `storeQueried` records whether `Task.findById`
was invoked. -/
inductive GetTaskResult where
  | err (r : Response)
  | ok (t : Task)
deriving DecidableEq, Repr

/-- The `getTask` middleware: identifier guard first (400, no store
lookup performed), then `findById` (500 on store failure, 404 when no
document matches), else the document is handed to the route handler. -/
def getTask (s : Store) (idStr : String) (findFails : Bool) :
    GetTaskResult × Bool :=
  if !(isValidObjectId idStr) then
    (.err ⟨400, .message "ID de tarea no válido"⟩, false)
  else if findFails then
    (.err ⟨500, .message "Error al buscar la tarea"⟩, true)
  else
    match s.findById idStr with
    | none => (.err ⟨404, .message "Tarea no encontrada"⟩, true)
    | some t => (.ok t, true)

/-- Result of a by-id handler: the response, the resulting store, and
whether a store lookup was performed. -/
structure HandlerOut where
  resp : Response
  store : Store
  lookedUp : Bool
deriving DecidableEq, Repr

/-- Handler of `GET /tasks/:id` (`router.get('/:id')`): `getTask` then
`res.json(res.task)`. -/
def fetchHandler (s : Store) (idStr : String) (findFails : Bool) :
    HandlerOut :=
  match getTask s idStr findFails with
  | (.err r, q) => ⟨r, s, q⟩
  | (.ok t, q) => ⟨⟨200, .task t⟩, s, q⟩

/-- The field assignments of the patch handler: each of `title`,
`description`, `completed` is overwritten exactly when present and
non-null in the body (`req.body.x != null`). -/
def applyPatch (t : Task) (b : PatchBody) : Task :=
  let t1 := if jvalNonNull b.title then
    { t with title := (jvalToMongoString b.title).getD t.title } else t
  let t2 := if jvalNonNull b.description then
    { t1 with description := jvalToMongoString b.description } else t1
  if jvalNonNull b.completed then
    { t2 with completed := jvalToMongoBool (b.completed.getD .null) }
  else t2

/-- Handler of `PATCH /tasks/:id` (`router.patch('/:id')`): `getTask`,
then the patch validation chain (400 with the violations, nothing
persisted), then the guarded field assignments and `save()` (500 on store
failure, prior record unchanged), returning 200 with the updated task. -/
def patchHandler (s : Store) (idStr : String) (b : PatchBody)
    (findFails saveFails : Bool) : HandlerOut :=
  match getTask s idStr findFails with
  | (.err r, q) => ⟨r, s, q⟩
  | (.ok t, q) =>
    let errs := patchValidate b.title b.description b.completed
    if errs.isEmpty then
      if saveFails then
        ⟨⟨500, .message "Error al actualizar la tarea"⟩, s, q⟩
      else
        let t' := applyPatch t b
        ⟨⟨200, .task t'⟩, s.saveDoc t', q⟩
    else ⟨⟨400, .errors errs⟩, s, q⟩

/-- Handler of `DELETE /tasks/:id` (`router.delete('/:id')`): `getTask`,
then `Task.deleteOne(\x7b_id: res.task._id\x7d)` (500 on store failure,
record untouched) and a fixed confirmation message. -/
def deleteHandler (s : Store) (idStr : String)
    (findFails delFails : Bool) : HandlerOut :=
  match getTask s idStr findFails with
  | (.err r, q) => ⟨r, s, q⟩
  | (.ok t, q) =>
    if delFails then ⟨⟨500, .message "Error al eliminar la tarea"⟩, s, q⟩
    else ⟨⟨200, .message "Tarea eliminada"⟩, s.deleteById t.id, q⟩

/-! ## Helper lemmas -/

/-- When the identifier is syntactically invalid, `getTask` short-circuits
with 400 and performs no store lookup. -/
theorem getTask_invalid (s : Store) (idStr : String) (ff : Bool)
    (h : isValidObjectId idStr = false) :
    getTask s idStr ff = (.err ⟨400, .message "ID de tarea no válido"⟩, false) := by
  simp [getTask, h]

/-- When the identifier is valid, no store failure occurs and no document
matches, `getTask` answers 404 (after a store lookup). -/
theorem getTask_notFound (s : Store) (idStr : String)
    (hv : isValidObjectId idStr = true) (hn : s.findById idStr = none) :
    getTask s idStr false = (.err ⟨404, .message "Tarea no encontrada"⟩, true) := by
  simp [getTask, hv, hn]

/-- When the identifier is valid and a document matches, `getTask` hands
that document onward. -/
theorem getTask_ok (s : Store) (idStr : String) (t : Task)
    (hv : isValidObjectId idStr = true) (hf : s.findById idStr = some t) :
    getTask s idStr false = (.ok t, true) := by
  simp [getTask, hv, hf]

/-- When the identifier is valid but the store lookup fails, `getTask`
answers 500. -/
theorem getTask_fail (s : Store) (idStr : String)
    (hv : isValidObjectId idStr = true) :
    getTask s idStr true = (.err ⟨500, .message "Error al buscar la tarea"⟩, true) := by
  simp [getTask, hv]

/-- Looking up a freshly appended identifier finds the appended document. -/
theorem findById_append_fresh (s : Store) (t : Task)
    (hfresh : ∀ u ∈ s.tasks, u.id ≠ t.id) :
    Store.findById ⟨s.tasks ++ [t]⟩ t.id = some t := by
  have h1 : s.tasks.find? (fun u => u.id == t.id) = none :=
    List.find?_eq_none.mpr fun x hx => by simpa using hfresh x hx
  simp [Store.findById, List.find?_append, h1]

/-- In a list of pairwise-distinct identifiers, erasing the documents with
a given identifier leaves none behind. -/
theorem find?_id_eraseP (idStr : String) (l : List Task)
    (h : l.Pairwise fun a b => a.id ≠ b.id) :
    (l.eraseP fun u => u.id == idStr).find? (fun u => u.id == idStr) = none := by
  induction l with
  | nil => simp
  | cons a tl ih =>
    rcases List.pairwise_cons.mp h with ⟨ha, htl⟩
    cases hc : (a.id == idStr) with
    | true =>
      simp only [List.eraseP_cons, hc, cond_true]
      refine List.find?_eq_none.mpr fun x hx => ?_
      have hax : a.id ≠ x.id := ha x hx
      have haid : a.id = idStr := beq_iff_eq.mp hc
      simp only [beq_iff_eq]
      intro hne
      exact hax (haid.trans hne.symm)
    | false =>
      simp only [List.eraseP_cons, hc, cond_false]
      rw [List.find?_cons_of_neg _ (by simp [hc])]
      exact ih htl

/-- Pairwise-distinct identifiers name at most one document. -/
theorem id_unique_of_pairwise {l : List Task}
    (h : l.Pairwise fun a b => a.id ≠ b.id) :
    ∀ u ∈ l, ∀ v ∈ l, u.id = v.id → u = v := by
  induction l with
  | nil => simp
  | cons a tl ih =>
    rcases List.pairwise_cons.mp h with ⟨ha, htl⟩
    intro u hu v hv hid
    rcases List.mem_cons.mp hu with rfl | hu'
    · rcases List.mem_cons.mp hv with rfl | hv'
      · rfl
      · exact absurd hid (ha v hv')
    · rcases List.mem_cons.mp hv with rfl | hv'
      · exact absurd hid.symm (ha u hu')
      · exact ih htl u hu' v hv' hid

/-- Saving back the very document that the store holds is a no-op on a
well-formed store. -/
theorem saveDoc_self (s : Store) (idStr : String) (t : Task)
    (hwf : Store.WF s) (hfind : s.findById idStr = some t) :
    s.saveDoc t = s := by
  have hmem : t ∈ s.tasks := List.mem_of_find?_eq_some hfind
  have hmap : s.tasks.map (fun u => if u.id == t.id then t else u) = s.tasks := by
    have := List.map_congr_left (l := s.tasks)
      (f := fun u => if u.id == t.id then t else u) (g := id) ?_
    · simpa using this
    · intro u hu
      by_cases hc : (u.id == t.id) = true
      · have : u = t := id_unique_of_pairwise hwf u hu t hmem (beq_iff_eq.mp hc)
        simp [hc, this]
      · simp [hc]
  show (⟨s.tasks.map fun u => if u.id == t.id then t else u⟩ : Store) = s
  rw [hmap]

/-- `applyPatch` never changes `id` or `createdAt`, and leaves each field
untouched when it is absent or null in the body. -/
theorem applyPatch_spec (t : Task) (b : PatchBody) :
    (applyPatch t b).id = t.id ∧ (applyPatch t b).createdAt = t.createdAt ∧
    (jvalNonNull b.title = false → (applyPatch t b).title = t.title) ∧
    (jvalNonNull b.description = false →
      (applyPatch t b).description = t.description) ∧
    (jvalNonNull b.completed = false →
      (applyPatch t b).completed = t.completed) := by
  simp only [applyPatch]
  refine ⟨?_, ?_, ?_, ?_, ?_⟩ <;> intros <;>
    split <;> simp_all <;> split <;> simp_all <;> split <;> simp_all

/-- Patching the empty body is the identity on the document. -/
theorem applyPatch_empty (t : Task) : applyPatch t ⟨none, none, none⟩ = t := by
  simp [applyPatch, jvalNonNull]

/-! ## Sample data used by the witnesses -/

/-- A syntactically valid 24-hex-character ObjectId. -/
def sampleId : String := "aaaaaaaaaaaaaaaaaaaaaaaa"

/-- A second valid ObjectId, distinct from `sampleId`. -/
def sampleId2 : String := "bbbbbbbbbbbbbbbbbbbbbbbb"

/-- A sample persisted task. -/
def sampleTask : Task := ⟨sampleId, "Tarea 1", some "desc", false, 5⟩

/-- A sample one-task store. -/
def sampleStore : Store := ⟨[sampleTask]⟩

/-! ## Claim theorems -/

/-- C1: for fetch-by-id, patch-by-id and delete-by-id, a syntactically
invalid identifier yields 400 with the fixed message "ID de tarea no
válido" with no store lookup performed and no store change, whatever the
store contents or store behaviour — so the malformed-identifier check
precedes the existence check; a valid identifier that matches no stored
task yields 404 with the fixed message "Tarea no encontrada". -/
theorem c1_id_guard_precedes_existence (s : Store) (idStr : String)
    (b : PatchBody) (ff sf : Bool) :
    (isValidObjectId idStr = false →
      fetchHandler s idStr ff =
        ⟨⟨400, .message "ID de tarea no válido"⟩, s, false⟩ ∧
      patchHandler s idStr b ff sf =
        ⟨⟨400, .message "ID de tarea no válido"⟩, s, false⟩ ∧
      deleteHandler s idStr ff sf =
        ⟨⟨400, .message "ID de tarea no válido"⟩, s, false⟩) ∧
    (isValidObjectId idStr = true → s.findById idStr = none →
      fetchHandler s idStr false =
        ⟨⟨404, .message "Tarea no encontrada"⟩, s, true⟩ ∧
      patchHandler s idStr b false sf =
        ⟨⟨404, .message "Tarea no encontrada"⟩, s, true⟩ ∧
      deleteHandler s idStr false sf =
        ⟨⟨404, .message "Tarea no encontrada"⟩, s, true⟩) := by
  constructor
  · intro h
    refine ⟨?_, ?_, ?_⟩ <;>
      simp [fetchHandler, patchHandler, deleteHandler, getTask_invalid, h]
  · intro hv hn
    refine ⟨?_, ?_, ?_⟩ <;>
      simp [fetchHandler, patchHandler, deleteHandler,
        getTask_notFound s idStr hv hn]

/-- Witness for C1 at concrete inputs: the malformed identifier
"id_invalido" is refused with 400 without a lookup, and a well-formed
unknown identifier on the empty store gets 404. -/
theorem c1_id_guard_precedes_existence_witness :
    fetchHandler ⟨[]⟩ "id_invalido" false =
      ⟨⟨400, .message "ID de tarea no válido"⟩, ⟨[]⟩, false⟩ ∧
    fetchHandler ⟨[]⟩ "aaaaaaaaaaaaaaaaaaaaaaaa" false =
      ⟨⟨404, .message "Tarea no encontrada"⟩, ⟨[]⟩, true⟩ := by
  constructor
  · exact ((c1_id_guard_precedes_existence ⟨[]⟩ "id_invalido"
      ⟨none, none, none⟩ false false).1 (by decide)).1
  · exact ((c1_id_guard_precedes_existence ⟨[]⟩ "aaaaaaaaaaaaaaaaaaaaaaaa"
      ⟨none, none, none⟩ false false).2 (by decide) rfl).1

/-- The query value the handler compares against is exactly the rendering
of the requested boolean. -/
theorem condStr_beq_true (b : Bool) : ((cond b "true" "false") == "true") = b := by
  cases b <;> decide

/-- C3: with a boolean filter value supplied the list handler returns
exactly the tasks whose `completed` equals that boolean; with the filter
omitted it returns every stored task; on the empty store it returns the
empty array; in each case the status is 200 (no error on absence of
matches). -/
theorem c3_list_filter_semantics (s : Store) (b : Bool) :
    listHandler s (some (cond b "true" "false")) false =
      ⟨200, .tasks (s.tasks.filter fun t => t.completed == b)⟩ ∧
    listHandler s none false = ⟨200, .tasks s.tasks⟩ ∧
    listHandler ⟨[]⟩ (some (cond b "true" "false")) false = ⟨200, .tasks []⟩ ∧
    listHandler (⟨[]⟩ : Store) none false = ⟨200, .tasks []⟩ := by
  refine ⟨?_, ?_, ?_, ?_⟩ <;>
    simp [listHandler, Store.findFiltered, condStr_beq_true]

/-- C8: any `completed` query value other than the literal string "true"
(for example "false", "maybe" or the empty string) makes the list handler
filter for tasks with `completed = false`. -/
theorem c8_nontrue_query_filters_pending (s : Store) (v : String)
    (h : v ≠ "true") :
    listHandler s (some v) false =
      ⟨200, .tasks (s.tasks.filter fun t => t.completed == false)⟩ := by
  simp [listHandler, Store.findFiltered, beq_eq_false_iff_ne.mpr h]

/-- Witness for C8: on a store holding one pending task, the query value
"maybe" selects that pending task. -/
theorem c8_nontrue_query_filters_pending_witness :
    listHandler sampleStore (some "maybe") false =
      ⟨200, .tasks [sampleTask]⟩ := by
  rw [c8_nontrue_query_filters_pending sampleStore "maybe" (by decide)]
  decide

/-- A title coerced to the empty string (absent, null or empty) makes the
create validation report the required-title violation first. -/
theorem postValidate_empty_title (d t0 : Option JVal)
    (h : jvalToValidatorString t0 = "") :
    postValidate t0 d = ⟨"title", "El título es obligatorio"⟩ ::
      (if checkFalsySkip d then []
       else if 1000 < (jvalToValidatorString d).length then
         [⟨"description", "La descripción no puede tener más de 1000 caracteres"⟩]
       else []) := by
  simp [postValidate, h]

/-- A title of 256 characters or more makes the create validation report
the max-length violation first. -/
theorem postValidate_long_title (d : Option JVal) (tstr : String)
    (h : 256 ≤ tstr.length) :
    postValidate (some (.str tstr)) d =
      ⟨"title", "El título no puede tener más de 255 caracteres"⟩ ::
      (if checkFalsySkip d then []
       else if 1000 < (jvalToValidatorString d).length then
         [⟨"description", "La descripción no puede tener más de 1000 caracteres"⟩]
       else []) := by
  have h0 : (tstr.length == 0) = false := beq_eq_false_iff_ne.mpr (by omega)
  have h255 : 255 < tstr.length := by omega
  simp [postValidate, jvalToValidatorString, h0, h255]

/-- A title of 1 to 255 characters with a description that is absent or a
string of at most 1000 characters passes the create validation. -/
theorem postValidate_ok (d : Option JVal) (tstr : String)
    (h1 : 1 ≤ tstr.length) (h2 : tstr.length ≤ 255)
    (hd : d = none ∨ ∃ ds, d = some (.str ds) ∧ ds.length ≤ 1000) :
    postValidate (some (.str tstr)) d = [] := by
  have h0 : (tstr.length == 0) = false := beq_eq_false_iff_ne.mpr (by omega)
  have h255 : ¬(255 < tstr.length) := by omega
  rcases hd with rfl | ⟨ds, rfl, hds⟩
  · simp [postValidate, jvalToValidatorString, h0, h255, checkFalsySkip]
  · by_cases hempty : ds.length = 0
    · simp [postValidate, jvalToValidatorString, checkFalsySkip, h0, h255, hempty]
    · have hlen : (ds.length == 0) = false := beq_eq_false_iff_ne.mpr hempty
      have h1000 : ¬(1000 < ds.length) := by omega
      simp [postValidate, jvalToValidatorString, checkFalsySkip, h0, h255,
        hlen, h1000]

/-- C2: a create request with `title` absent or the empty string is
refused with 400, the fixed message "El título es obligatorio" as the
first violation, and nothing persisted; a title of 256 characters or more
is refused with 400 and the max-length violation first; a title of 1 to
255 characters with an admissible description is accepted with 201 and
the created record. -/
theorem c2_create_title_validation (s : Store) (d : Option JVal)
    (tstr : String) (genId : String) (now : Nat) (sf : Bool) :
    (∀ t0, (t0 = none ∨ t0 = some (.str "")) →
      ∃ es, createHandler s ⟨t0, d⟩ genId now sf = (⟨400, .errors es⟩, s) ∧
        es.head? = some ⟨"title", "El título es obligatorio"⟩) ∧
    (256 ≤ tstr.length →
      ∃ es, createHandler s ⟨some (.str tstr), d⟩ genId now sf =
          (⟨400, .errors es⟩, s) ∧
        es.head? =
          some ⟨"title", "El título no puede tener más de 255 caracteres"⟩) ∧
    (1 ≤ tstr.length → tstr.length ≤ 255 →
      (d = none ∨ ∃ ds, d = some (.str ds) ∧ ds.length ≤ 1000) →
      createHandler s ⟨some (.str tstr), d⟩ genId now false =
        (⟨201, .task ⟨genId, tstr, jvalToMongoString d, false, now⟩⟩,
         ⟨s.tasks ++ [⟨genId, tstr, jvalToMongoString d, false, now⟩]⟩)) := by
  refine ⟨?_, ?_, ?_⟩
  · intro t0 ht0
    have hts : jvalToValidatorString t0 = "" := by
      rcases ht0 with rfl | rfl <;> rfl
    refine ⟨postValidate t0 d, ?_, ?_⟩
    · simp [createHandler, postValidate_empty_title d t0 hts]
    · simp [postValidate_empty_title d t0 hts]
  · intro h
    refine ⟨postValidate (some (.str tstr)) d, ?_, ?_⟩
    · simp [createHandler, postValidate_long_title d tstr h]
    · simp [postValidate_long_title d tstr h]
  · intro h1 h2 hd
    simp [createHandler, postValidate_ok d tstr h1 h2 hd, Store.saveNew,
      jvalToMongoString]

/-- Witness for C2 at concrete inputs: the empty body is refused with 400,
a 256-character title is refused with 400, and the title "Nueva tarea" is
accepted with 201 and the created record. -/
theorem c2_create_title_validation_witness :
    (createHandler ⟨[]⟩ ⟨none, none⟩ sampleId 0 false).1.status = 400 ∧
    (createHandler ⟨[]⟩ ⟨some (.str (String.mk (List.replicate 256 'a'))),
      none⟩ sampleId 0 false).1.status = 400 ∧
    createHandler ⟨[]⟩ ⟨some (.str "Nueva tarea"), none⟩ sampleId 0 false =
      (⟨201, .task ⟨sampleId, "Nueva tarea", none, false, 0⟩⟩,
       ⟨[⟨sampleId, "Nueva tarea", none, false, 0⟩]⟩) := by
  refine ⟨?_, ?_, ?_⟩
  · obtain ⟨es, heq, -⟩ :=
      (c2_create_title_validation ⟨[]⟩ none "x" sampleId 0 false).1
        none (Or.inl rfl)
    rw [heq]
  · obtain ⟨es, heq, -⟩ :=
      (c2_create_title_validation ⟨[]⟩ none
        (String.mk (List.replicate 256 'a')) sampleId 0 false).2.1 (by decide)
    rw [heq]
  · have h := (c2_create_title_validation ⟨[]⟩ none "Nueva tarea"
      sampleId 0 false).2.2 (by decide) (by decide) (Or.inl rfl)
    simpa [jvalToMongoString] using h

/-- C4: a successful patch overwrites only the fields included in the
body; every omitted field keeps its prior value, and `id` and `createdAt`
are never changed. -/
theorem c4_patch_frame (s : Store) (idStr : String) (b : PatchBody)
    (t : Task) (hvalid : isValidObjectId idStr = true)
    (hfind : s.findById idStr = some t)
    (hval : patchValidate b.title b.description b.completed = []) :
    ∃ t', patchHandler s idStr b false false =
        ⟨⟨200, .task t'⟩, s.saveDoc t', true⟩ ∧
      t'.id = t.id ∧ t'.createdAt = t.createdAt ∧
      (b.title = none → t'.title = t.title) ∧
      (b.description = none → t'.description = t.description) ∧
      (b.completed = none → t'.completed = t.completed) := by
  obtain ⟨h1, h2, h3, h4, h5⟩ := applyPatch_spec t b
  refine ⟨applyPatch t b, ?_, h1, h2, ?_, ?_, ?_⟩
  · simp [patchHandler, getTask_ok s idStr t hvalid hfind, hval]
  · intro h
    exact h3 (by simp [jvalNonNull, h])
  · intro h
    exact h4 (by simp [jvalNonNull, h])
  · intro h
    exact h5 (by simp [jvalNonNull, h])

/-- Witness for C4: patching only the title of the sample task answers
200. -/
theorem c4_patch_frame_witness :
    (patchHandler sampleStore sampleId ⟨some (.str "Nueva"), none, none⟩
      false false).resp.status = 200 := by
  obtain ⟨t', heq, -⟩ := c4_patch_frame sampleStore sampleId
    ⟨some (.str "Nueva"), none, none⟩ sampleTask (by decide) (by decide)
    (by decide)
  rw [heq]

/-- C10: a patch whose body contains none of the three fields succeeds
with 200 and is the identity on the stored record and on the store. -/
theorem c10_empty_patch_identity (s : Store) (idStr : String) (t : Task)
    (hwf : Store.WF s) (hvalid : isValidObjectId idStr = true)
    (hfind : s.findById idStr = some t) :
    patchHandler s idStr ⟨none, none, none⟩ false false =
      ⟨⟨200, .task t⟩, s, true⟩ := by
  have hval : patchValidate none none none = [] := rfl
  have hsave := saveDoc_self s idStr t hwf hfind
  simp [patchHandler, getTask_ok s idStr t hvalid hfind, hval,
    applyPatch_empty, hsave]

/-- Witness for C10: the empty patch on the sample store returns the
sample task and leaves the store as it was. -/
theorem c10_empty_patch_identity_witness :
    patchHandler sampleStore sampleId ⟨none, none, none⟩ false false =
      ⟨⟨200, .task sampleTask⟩, sampleStore, true⟩ :=
  c10_empty_patch_identity sampleStore sampleId sampleTask
    (by simp [Store.WF, sampleStore]) (by decide) (by decide)

/-- C9 counterexample: on the sample store, a patch whose body carries
`completed: null` is rejected with 400 by the boolean validation, while
the same patch with `completed` absent succeeds with 200 — so a null
`completed` is not treated as an absent field. -/
theorem c9_null_completed_counterexample :
    (patchHandler sampleStore sampleId ⟨none, none, some .null⟩
      false false).resp =
      ⟨400, .errors [⟨"completed", "El estado debe ser un booleano"⟩]⟩ ∧
    (patchHandler sampleStore sampleId ⟨none, none, none⟩
      false false).resp = ⟨200, .task sampleTask⟩ := by
  decide

/-- C9 (amended): a null `title` or `description` in a patch body that
passes validation is treated as absent — the field is not overwritten and
keeps its prior value; a null `completed`, however, fails the boolean
validation: the patch is rejected with 400 (the completed violation among
the errors) and the store is unchanged, so the record still keeps all its
prior values. -/
theorem c9_null_field_handling (s : Store) (idStr : String) (t : Task)
    (b : PatchBody) (sf : Bool)
    (hvalid : isValidObjectId idStr = true)
    (hfind : s.findById idStr = some t) :
    (patchValidate b.title b.description b.completed = [] →
      patchHandler s idStr b false false =
        ⟨⟨200, .task (applyPatch t b)⟩, s.saveDoc (applyPatch t b), true⟩ ∧
      (b.title = some .null → (applyPatch t b).title = t.title) ∧
      (b.description = some .null →
        (applyPatch t b).description = t.description)) ∧
    (b.completed = some .null →
      ∃ es, patchHandler s idStr b false sf = ⟨⟨400, .errors es⟩, s, true⟩ ∧
        Violation.mk "completed" "El estado debe ser un booleano" ∈ es) := by
  obtain ⟨-, -, h3, h4, -⟩ := applyPatch_spec t b
  constructor
  · intro hval
    refine ⟨?_, ?_, ?_⟩
    · simp [patchHandler, getTask_ok s idStr t hvalid hfind, hval]
    · intro h
      exact h3 (by simp [jvalNonNull, h])
    · intro h
      exact h4 (by simp [jvalNonNull, h])
  · intro hc
    have hv : Violation.mk "completed" "El estado debe ser un booleano" ∈
        patchValidate b.title b.description b.completed := by
      simp [patchValidate, hc, optionalSkip, jvalToValidatorString,
        isBooleanStr]
    have hne : (patchValidate b.title b.description b.completed).isEmpty
        = false :=
      List.isEmpty_eq_false.mpr (List.ne_nil_of_mem hv)
    refine ⟨patchValidate b.title b.description b.completed, ?_, hv⟩
    simp [patchHandler, getTask_ok s idStr t hvalid hfind, hne]

/-- Witness for the amended C9: a null title leaves the sample task
unchanged through a 200 patch, and a null completed is rejected with
400. -/
theorem c9_null_field_handling_witness :
    (patchHandler sampleStore sampleId ⟨some .null, none, none⟩
      false false).resp = ⟨200, .task sampleTask⟩ ∧
    (patchHandler sampleStore sampleId ⟨none, none, some .null⟩
      false false).resp.status = 400 := by
  constructor
  · have h := (c9_null_field_handling sampleStore sampleId sampleTask
      ⟨some .null, none, none⟩ false (by decide) (by decide)).1 (by decide)
    rw [h.1]
    decide
  · obtain ⟨es, heq, -⟩ := (c9_null_field_handling sampleStore sampleId
      sampleTask ⟨none, none, some .null⟩ false (by decide) (by decide)).2 rfl
    rw [heq]

/-- C5: a store-layer failure in any of the five operations is caught and
answered as 500 with the fixed operation-specific message, and the store
is left exactly as it was — a failed create persists nothing and a failed
patch leaves the prior record unchanged. -/
theorem c5_store_failure_maps_to_500 (s : Store) (q : Option String)
    (cb : CreateBody) (idStr : String) (pb : PatchBody) (genId : String)
    (now : Nat) (t : Task) :
    listHandler s q true = ⟨500, .message "Error al obtener las tareas"⟩ ∧
    (postValidate cb.title cb.description = [] →
      createHandler s cb genId now true =
        (⟨500, .message "Error al crear la tarea"⟩, s)) ∧
    (isValidObjectId idStr = true →
      fetchHandler s idStr true =
        ⟨⟨500, .message "Error al buscar la tarea"⟩, s, true⟩ ∧
      patchHandler s idStr pb true false =
        ⟨⟨500, .message "Error al buscar la tarea"⟩, s, true⟩ ∧
      deleteHandler s idStr true false =
        ⟨⟨500, .message "Error al buscar la tarea"⟩, s, true⟩) ∧
    (isValidObjectId idStr = true → s.findById idStr = some t →
      patchValidate pb.title pb.description pb.completed = [] →
      patchHandler s idStr pb false true =
        ⟨⟨500, .message "Error al actualizar la tarea"⟩, s, true⟩) ∧
    (isValidObjectId idStr = true → s.findById idStr = some t →
      deleteHandler s idStr false true =
        ⟨⟨500, .message "Error al eliminar la tarea"⟩, s, true⟩) := by
  refine ⟨?_, ?_, ?_, ?_, ?_⟩
  · simp [listHandler]
  · intro h
    simp [createHandler, h]
  · intro hv
    refine ⟨?_, ?_, ?_⟩ <;>
      simp [fetchHandler, patchHandler, deleteHandler, getTask_fail s idStr hv]
  · intro hv hf hval
    simp [patchHandler, getTask_ok s idStr t hv hf, hval]
  · intro hv hf
    simp [deleteHandler, getTask_ok s idStr t hv hf]

/-- Witness for C5: each handler run against a failing store on the
sample data answers 500 with its fixed message and leaves the store
untouched. -/
theorem c5_store_failure_maps_to_500_witness :
    listHandler sampleStore none true =
      ⟨500, .message "Error al obtener las tareas"⟩ ∧
    createHandler sampleStore ⟨some (.str "Tarea"), none⟩ sampleId2 0 true =
      (⟨500, .message "Error al crear la tarea"⟩, sampleStore) ∧
    fetchHandler sampleStore sampleId true =
      ⟨⟨500, .message "Error al buscar la tarea"⟩, sampleStore, true⟩ ∧
    patchHandler sampleStore sampleId ⟨none, none, none⟩ false true =
      ⟨⟨500, .message "Error al actualizar la tarea"⟩, sampleStore, true⟩ ∧
    deleteHandler sampleStore sampleId false true =
      ⟨⟨500, .message "Error al eliminar la tarea"⟩, sampleStore, true⟩ := by
  have h := c5_store_failure_maps_to_500 sampleStore none
    ⟨some (.str "Tarea"), none⟩ sampleId ⟨none, none, none⟩ sampleId2 0
    sampleTask
  exact ⟨h.1, h.2.1 (by decide), (h.2.2.1 (by decide)).1,
    h.2.2.2.1 (by decide) (by decide) (by decide),
    h.2.2.2.2 (by decide) (by decide)⟩

/-- The Mongoose string cast undoes the embedding of an optional string
into a body value. -/
theorem jvalToMongoString_map_str (d : Option String) :
    jvalToMongoString (d.map JVal.str) = d := by
  cases d <;> rfl

/-- The Mongoose string cast is the identity on a submitted string. -/
theorem jvalToMongoString_str (v : String) :
    jvalToMongoString (some (.str v)) = some v := rfl

/-- C6: a successful create answers 201 with the created record —
submitted `title` and `description`, `completed = false`, a populated
`createdAt` — and fetching the returned `id` finds exactly that record. -/
theorem c6_create_fetch_roundtrip (s : Store) (title : String)
    (d : Option String) (genId : String) (now : Nat)
    (hvalid : isValidObjectId genId = true)
    (hfresh : ∀ u ∈ s.tasks, u.id ≠ genId)
    (ht1 : 1 ≤ title.length) (ht2 : title.length ≤ 255)
    (hd : ∀ ds, d = some ds → ds.length ≤ 1000) :
    ∃ created s',
      createHandler s ⟨some (.str title), d.map .str⟩ genId now false =
        (⟨201, .task created⟩, s') ∧
      created.id = genId ∧ created.title = title ∧
      created.description = d ∧ created.completed = false ∧
      created.createdAt = now ∧
      fetchHandler s' created.id false = ⟨⟨200, .task created⟩, s', true⟩ := by
  have hd' : d.map JVal.str = none ∨
      ∃ ds, d.map JVal.str = some (.str ds) ∧ ds.length ≤ 1000 := by
    cases d with
    | none => exact Or.inl rfl
    | some ds => exact Or.inr ⟨ds, rfl, hd ds rfl⟩
  have hpost := postValidate_ok (d.map JVal.str) title ht1 ht2 hd'
  refine ⟨⟨genId, title, d, false, now⟩,
    ⟨s.tasks ++ [⟨genId, title, d, false, now⟩]⟩, ?_, rfl, rfl, rfl, rfl,
    rfl, ?_⟩
  · simp [createHandler, hpost, Store.saveNew, jvalToMongoString_map_str,
      jvalToMongoString_str]
  · have hfb := findById_append_fresh s ⟨genId, title, d, false, now⟩
      (by simpa using hfresh)
    simp [fetchHandler, getTask, hvalid, hfb]

/-- Witness for C6: creating "Nueva tarea" on the empty store and
fetching it back round-trips. -/
theorem c6_create_fetch_roundtrip_witness :
    ∃ created s',
      createHandler ⟨[]⟩ ⟨some (.str "Nueva tarea"),
        (none : Option String).map .str⟩ sampleId 0 false =
        (⟨201, .task created⟩, s') ∧
      created.id = sampleId ∧ created.title = "Nueva tarea" ∧
      created.description = none ∧ created.completed = false ∧
      created.createdAt = 0 ∧
      fetchHandler s' created.id false = ⟨⟨200, .task created⟩, s', true⟩ :=
  c6_create_fetch_roundtrip ⟨[]⟩ "Nueva tarea" none sampleId 0 (by decide)
    (by simp) (by decide) (by decide) (fun ds h => nomatch h)

/-- C7: a successful delete removes the record — the delete answers 200
with the fixed confirmation message (not the record) — and a subsequent
fetch of the same identifier answers 404. -/
theorem c7_delete_removes_record (s : Store) (idStr : String) (t : Task)
    (hwf : Store.WF s) (hvalid : isValidObjectId idStr = true)
    (hfind : s.findById idStr = some t) :
    deleteHandler s idStr false false =
      ⟨⟨200, .message "Tarea eliminada"⟩, s.deleteById t.id, true⟩ ∧
    fetchHandler (s.deleteById t.id) idStr false =
      ⟨⟨404, .message "Tarea no encontrada"⟩, s.deleteById t.id, true⟩ := by
  constructor
  · simp [deleteHandler, getTask_ok s idStr t hvalid hfind]
  · have hfind' : s.tasks.find? (fun u => u.id == idStr) = some t := hfind
    have hp := List.find?_some hfind'
    have htid : t.id = idStr := beq_iff_eq.mp hp
    have hnone : Store.findById (s.deleteById t.id) idStr = none := by
      show (s.tasks.eraseP fun u => u.id == t.id).find?
        (fun u => u.id == idStr) = none
      rw [htid]
      exact find?_id_eraseP idStr s.tasks hwf
    simp [fetchHandler, getTask_notFound _ idStr hvalid hnone]

/-- Witness for C7: deleting the sample task empties the sample store and
its fetch then answers 404. -/
theorem c7_delete_removes_record_witness :
    deleteHandler sampleStore sampleId false false =
      ⟨⟨200, .message "Tarea eliminada"⟩, ⟨[]⟩, true⟩ ∧
    fetchHandler ⟨[]⟩ sampleId false =
      ⟨⟨404, .message "Tarea no encontrada"⟩, ⟨[]⟩, true⟩ := by
  have h := c7_delete_removes_record sampleStore sampleId sampleTask
    (by simp [Store.WF, sampleStore]) (by decide) (by decide)
  have he : sampleStore.deleteById sampleTask.id = (⟨[]⟩ : Store) := by decide
  rw [he] at h
  exact h

end TaskManager
